import Mathlib

/-!
Shallow embedding of the `lcd1602-driver` crate: the command encoders
(`entry_mode.rs`, `display_control.rs`), the byte-level display controller
(`lib.rs`) over an abstract fallible data bus, and the pin-level 4-bit and
8-bit transports (`fourbit_bus.rs` / `fourbit_eightbit_bus.rs`).

Machine bytes are modelled as `Nat` (all values stay below 256; the only
operations used are `&&&` and `|||`, which cannot overflow).  Fallible
operations return `Except σ σ`: `.ok s` on success, `.error s` when the
underlying pin or bus reported a failure (the Rust methods take `&mut self`,
so on error the caller still holds the mutated state — the error payload
carries that state).  The injected delay provider is infallible; delays are
recorded as trace events.
-/

namespace LCD

/-! ## Command encoders (entry_mode.rs) -/

/-- `CursorMode` from entry_mode.rs. -/
inductive CursorMode where
  | Increment
  | Decrement
deriving DecidableEq, Repr

/-- `ShiftMode` from entry_mode.rs. -/
inductive ShiftMode where
  | On
  | Off
deriving DecidableEq, Repr

/-- `impl From<CursorMode> for EntryModeFlags` (bitflags values). -/
def entryModeFlagsOfCursorMode : CursorMode → Nat
  | CursorMode.Increment => 0b00000010
  | CursorMode.Decrement => 0b00000000

/-- `impl From<ShiftMode> for EntryModeFlags` (bitflags values). -/
def entryModeFlagsOfShiftMode : ShiftMode → Nat
  | ShiftMode.On => 0b00000001
  | ShiftMode.Off => 0b00000000

/-- `EntryMode` struct from entry_mode.rs. -/
structure EntryMode where
  move_direction : CursorMode
  display_shift : ShiftMode
deriving DecidableEq, Repr

/-- `EntryMode::as_byte`: base bit `ENTRY_MODE = 0b0000_0100` OR the two flag
values. -/
def EntryMode.as_byte (e : EntryMode) : Nat :=
  0b00000100 ||| entryModeFlagsOfCursorMode e.move_direction
    ||| entryModeFlagsOfShiftMode e.display_shift

/-- `impl Default for EntryMode`: Increment, shift Off. -/
def EntryMode.default : EntryMode :=
  { move_direction := CursorMode.Increment, display_shift := ShiftMode.Off }

/-! ## Command encoders (display_control.rs) -/

/-- `Display` enum from display_control.rs. -/
inductive Display where
  | On
  | Off
deriving DecidableEq, Repr

/-- `Cursor` enum from display_control.rs. -/
inductive Cursor where
  | On
  | Off
deriving DecidableEq, Repr

/-- `CursorBlink` enum from display_control.rs. -/
inductive CursorBlink where
  | On
  | Off
deriving DecidableEq, Repr

/-- `impl From<Display> for DisplayControlFlags`. -/
def displayControlFlagsOfDisplay : Display → Nat
  | Display.On => 0b00000100
  | Display.Off => 0b00000000

/-- `impl From<Cursor> for DisplayControlFlags`. -/
def displayControlFlagsOfCursor : Cursor → Nat
  | Cursor.On => 0b00000010
  | Cursor.Off => 0b00000000

/-- `impl From<CursorBlink> for DisplayControlFlags`. -/
def displayControlFlagsOfCursorBlink : CursorBlink → Nat
  | CursorBlink.On => 0b00000001
  | CursorBlink.Off => 0b00000000

/-- `DisplayMode` struct from display_control.rs (fields in source order). -/
structure DisplayMode where
  cursor_visibility : Cursor
  cursor_blink : CursorBlink
  display : Display
deriving DecidableEq, Repr

/-- `DisplayMode::as_byte`: base bit `DISPLAY_CONTROL = 0b0000_1000` OR the
three flag values, in source order. -/
def DisplayMode.as_byte (d : DisplayMode) : Nat :=
  0b00001000 ||| displayControlFlagsOfDisplay d.display
    ||| displayControlFlagsOfCursor d.cursor_visibility
    ||| displayControlFlagsOfCursorBlink d.cursor_blink

/-- `impl Default for DisplayMode`: all three fields `On` in the source. -/
def DisplayMode.default : DisplayMode :=
  { cursor_visibility := Cursor.On, cursor_blink := CursorBlink.On,
    display := Display.On }

/-! ## Byte-level display controller (lib.rs)

The `DataBus` trait boundary: `lib.rs` only ever calls
`self.bus.write(byte, is_data, delay)` on its bus, so the controller is
embedded over an abstract bus modelled by an oracle `BusOracle` telling
whether the n-th bus write succeeds.  Every bus write and every delay call
performed by the controller is recorded as a trace event. -/

/-- One observable event of the controller: a successful bus write (with its
is-data flag) or a delay call. -/
inductive BEv where
  | write (byte : Nat) (is_data : Bool)
  | delayUs (n : Nat)
  | delayMs (n : Nat)
deriving DecidableEq, Repr

/-- `LCD1602` struct state plus the instrumentation (number of bus writes
attempted so far, trace of events). -/
structure LCDState where
  entry_mode : EntryMode
  display_mode : DisplayMode
  writeCount : Nat
  events : List BEv
deriving DecidableEq, Repr

/-- Whether the n-th call to `DataBus::write` succeeds. -/
def BusOracle : Type := Nat → Bool

/-- One call to `DataBus::write`.  On success the write is recorded; on
failure the bus transmits nothing observable at this level and the `?`
operator propagates `Err`. -/
def busWrite (orc : BusOracle) (byte : Nat) (is_data : Bool)
    (s : LCDState) : Except LCDState LCDState :=
  if orc s.writeCount then
    Except.ok { s with writeCount := s.writeCount + 1,
                       events := s.events ++ [BEv.write byte is_data] }
  else
    Except.error { s with writeCount := s.writeCount + 1 }

/-- `delay.delay_us(n)` (infallible). -/
def lcdDelayUs (n : Nat) (s : LCDState) : LCDState :=
  { s with events := s.events ++ [BEv.delayUs n] }

/-- `delay.delay_ms(n)` (infallible). -/
def lcdDelayMs (n : Nat) (s : LCDState) : LCDState :=
  { s with events := s.events ++ [BEv.delayMs n] }

/-- `LCD1602::write_command`: one bus write with `is_data = false`, then a
100 µs delay. -/
def write_command (orc : BusOracle) (cmd : Nat)
    (s : LCDState) : Except LCDState LCDState :=
  (busWrite orc cmd false s).map (lcdDelayUs 100)

/-- `LCD1602::reset`. -/
def reset (orc : BusOracle) (s : LCDState) : Except LCDState LCDState :=
  write_command orc 0b00000010 s

/-- `LCD1602::clear`. -/
def clear (orc : BusOracle) (s : LCDState) : Except LCDState LCDState :=
  write_command orc 0b00000001 s

/-- `LCD1602::set_display_mode`: store the new mode, then send its byte. -/
def set_display_mode (orc : BusOracle) (display_mode : DisplayMode)
    (s : LCDState) : Except LCDState LCDState :=
  let s := { s with display_mode := display_mode }
  write_command orc s.display_mode.as_byte s

/-- `LCD1602::set_autoscroll`: mutate `entry_mode.display_shift`, then send
the full entry-mode byte. -/
def set_autoscroll (orc : BusOracle) (enabled : ShiftMode)
    (s : LCDState) : Except LCDState LCDState :=
  let s := { s with entry_mode := { s.entry_mode with display_shift := enabled } }
  write_command orc s.entry_mode.as_byte s

/-- `LCD1602::set_cursor_visibility`: mutate one field, then send the full
display-mode byte. -/
def set_cursor_visibility (orc : BusOracle) (visibility : Cursor)
    (s : LCDState) : Except LCDState LCDState :=
  let s := { s with
    display_mode := { s.display_mode with cursor_visibility := visibility } }
  write_command orc s.display_mode.as_byte s

/-- `LCD1602::set_display`: mutate one field, then send the full
display-mode byte. -/
def set_display (orc : BusOracle) (display : Display)
    (s : LCDState) : Except LCDState LCDState :=
  let s := { s with
    display_mode := { s.display_mode with display := display } }
  write_command orc s.display_mode.as_byte s

/-- `LCD1602::set_cursor_blink`: mutate one field, then send the full
display-mode byte. -/
def set_cursor_blink (orc : BusOracle) (blink : CursorBlink)
    (s : LCDState) : Except LCDState LCDState :=
  let s := { s with
    display_mode := { s.display_mode with cursor_blink := blink } }
  write_command orc s.display_mode.as_byte s

/-- `LCD1602::set_cursor_mode`: mutate `entry_mode.move_direction`, then send
the full entry-mode byte. -/
def set_cursor_mode (orc : BusOracle) (mode : CursorMode)
    (s : LCDState) : Except LCDState LCDState :=
  let s := { s with entry_mode := { s.entry_mode with move_direction := mode } }
  write_command orc s.entry_mode.as_byte s

/-- `LCD1602::set_cursor_pos`: mask the position to 7 bits and send it with
the set-DDRAM-address marker bit. -/
def set_cursor_pos (orc : BusOracle) (position : Nat)
    (s : LCDState) : Except LCDState LCDState :=
  let lower_7_bits := 0b01111111 &&& position
  write_command orc (0b10000000 ||| lower_7_bits) s

/-- `Direction` enum from lib.rs. -/
inductive Direction where
  | Left
  | Right
deriving DecidableEq, Repr

/-- `LCD1602::shift_cursor`, including the duplicated OR of `bits` present in
the source. -/
def shift_cursor (orc : BusOracle) (dir : Direction)
    (s : LCDState) : Except LCDState LCDState :=
  let bits := match dir with
    | Direction.Left => 0b00000000
    | Direction.Right => 0b00000100
  write_command orc (0b00010000 ||| bits ||| bits) s

/-- `LCD1602::shift_display`. -/
def shift_display (orc : BusOracle) (dir : Direction)
    (s : LCDState) : Except LCDState LCDState :=
  let bits := match dir with
    | Direction.Left => 0b00000000
    | Direction.Right => 0b00000100
  write_command orc (0b00011000 ||| bits) s

/-- `LCD1602::write_byte`: one bus write with `is_data = true`, then a
100 µs delay. -/
def write_byte (orc : BusOracle) (data : Nat)
    (s : LCDState) : Except LCDState LCDState :=
  (busWrite orc data true s).map (lcdDelayUs 100)

/-- `LCD1602::init_4bit`: the 4-bit initialization sequence of lib.rs, step
by step in source order. -/
def init_4bit (orc : BusOracle) (s : LCDState) : Except LCDState LCDState :=
  let s := lcdDelayMs 15 s
  (busWrite orc 0x33 false s).bind fun s =>
  let s := lcdDelayMs 5 s
  (busWrite orc 0x32 false s).bind fun s =>
  let s := lcdDelayUs 100 s
  (busWrite orc 0x28 false s).bind fun s =>
  let s := lcdDelayUs 100 s
  (busWrite orc 0x0E false s).bind fun s =>
  let s := lcdDelayUs 100 s
  (busWrite orc 0x01 false s).bind fun s =>
  let s := lcdDelayUs 100 s
  (busWrite orc s.entry_mode.as_byte false s).bind fun s =>
  let s := lcdDelayUs 100 s
  (busWrite orc 0x80 false s).bind fun s =>
  Except.ok (lcdDelayUs 100 s)

/-- `LCD1602::init_8bit`: the 8-bit initialization sequence of lib.rs, step
by step in source order. -/
def init_8bit (orc : BusOracle) (s : LCDState) : Except LCDState LCDState :=
  let s := lcdDelayMs 15 s
  (busWrite orc 0b00110000 false s).bind fun s =>
  let s := lcdDelayMs 5 s
  (busWrite orc 0b00111000 false s).bind fun s =>
  let s := lcdDelayUs 100 s
  (busWrite orc 0b00001110 false s).bind fun s =>
  let s := lcdDelayUs 100 s
  (busWrite orc 0b00000001 false s).bind fun s =>
  let s := lcdDelayUs 100 s
  (busWrite orc 0b00000111 false s).bind fun s =>
  let s := lcdDelayUs 100 s
  (busWrite orc s.entry_mode.as_byte false s).bind fun s =>
  Except.ok (lcdDelayUs 100 s)

/-- The freshly built `LCD1602` value both constructors start from: default
entry mode and display mode, nothing transmitted yet. -/
def mkLCD : LCDState :=
  { entry_mode := EntryMode.default, display_mode := DisplayMode.default,
    writeCount := 0, events := [] }

/-- `LCD1602::new_4bit`: build the struct with defaults, run `init_4bit`;
construction fails exactly when the init sequence fails. -/
def new_4bit (orc : BusOracle) : Except LCDState LCDState :=
  init_4bit orc mkLCD

/-- `LCD1602::new_8bit`: build the struct with defaults, run `init_8bit`. -/
def new_8bit (orc : BusOracle) : Except LCDState LCDState :=
  init_8bit orc mkLCD

/-- The bus oracle that never fails. -/
def orcAlwaysTrue : BusOracle := fun _ => true

/-- The bus oracle that always fails. -/
def orcAlwaysFalse : BusOracle := fun _ => false

/-- Number of `write` events in a trace. -/
def numWrites : List BEv → Nat
  | [] => 0
  | BEv.write _ _ :: r => numWrites r + 1
  | BEv.delayUs _ :: r => numWrites r
  | BEv.delayMs _ :: r => numWrites r

/-- The shape every public command operation must have per the spec: exactly
one bus write, then exactly one 100 µs delay, and nothing else appended to
the trace. -/
def oneWriteThenDelay (f : LCDState → Except LCDState LCDState)
    (s : LCDState) : Prop :=
  ∃ b fl s', f s = Except.ok s' ∧
    s'.events = s.events ++ [BEv.write b fl, BEv.delayUs 100]

/-! ## Pin-level transports (fourbit_bus.rs / fourbit_eightbit_bus.rs)

A transport owns a register-select pin, an enable pin and 4 or 8 data pins.
Each `OutputPin` drive (`set_high`/`set_low`) is fallible; whether the n-th
pin operation of a write succeeds is given by a `PinOracle`.  Successful pin
drives and delay calls are recorded in a trace. -/

/-- The output pins a transport owns. -/
inductive PinId where
  | rs
  | en
  | d0
  | d1
  | d2
  | d3
  | d4
  | d5
  | d6
  | d7
deriving DecidableEq, Repr

/-- One observable pin-level event: a successful pin drive or a delay. -/
inductive PinEv where
  | set (p : PinId) (level : Bool)
  | delayMs (n : Nat)
deriving DecidableEq, Repr

/-- Pin-level instrumentation: number of pin operations attempted, trace of
successful events. -/
structure PinState where
  opCount : Nat
  trace : List PinEv
deriving DecidableEq, Repr

/-- Whether the n-th pin operation succeeds. -/
def PinOracle : Type := Nat → Bool

/-- One `set_high`/`set_low` call: `level = true` is `set_high`.  On failure
the `map_err(|_| Error)?` in the source propagates the single opaque error. -/
def setPin (orc : PinOracle) (p : PinId) (level : Bool)
    (s : PinState) : Except PinState PinState :=
  if orc s.opCount then
    Except.ok { opCount := s.opCount + 1, trace := s.trace ++ [PinEv.set p level] }
  else
    Except.error { s with opCount := s.opCount + 1 }

/-- One straight-line step of a transport `write` body: a pin drive or a
delay call. -/
inductive POp where
  | setp (p : PinId) (level : Bool)
  | dly (n : Nat)
deriving DecidableEq, Repr

/-- Run a straight-line sequence of pin operations, short-circuiting on the
first failure exactly as the chain of `?` operators in the source does. -/
def runOps (orc : PinOracle) : List POp → PinState → Except PinState PinState
  | [], s => Except.ok s
  | POp.setp p lv :: rest, s => (setPin orc p lv s).bind (runOps orc rest)
  | POp.dly n :: rest, s =>
      runOps orc rest { s with trace := s.trace ++ [PinEv.delayMs n] }

/-- `FourBitBus::write_lower_nibble`: bits 0–3 of the byte on d4–d7, in
source order (`db0 = (mask & data) != 0`, then drive high or low). -/
def write_lower_nibble_ops (data : Nat) : List POp :=
  [POp.setp PinId.d4 (decide ((0b00000001 &&& data) ≠ 0)),
   POp.setp PinId.d5 (decide ((0b00000010 &&& data) ≠ 0)),
   POp.setp PinId.d6 (decide ((0b00000100 &&& data) ≠ 0)),
   POp.setp PinId.d7 (decide ((0b00001000 &&& data) ≠ 0))]

/-- `FourBitBus::write_upper_nibble`: bits 4–7 of the byte on d4–d7. -/
def write_upper_nibble_ops (data : Nat) : List POp :=
  [POp.setp PinId.d4 (decide ((0b00010000 &&& data) ≠ 0)),
   POp.setp PinId.d5 (decide ((0b00100000 &&& data) ≠ 0)),
   POp.setp PinId.d6 (decide ((0b01000000 &&& data) ≠ 0)),
   POp.setp PinId.d7 (decide ((0b10000000 &&& data) ≠ 0))]

/-- The straight-line body of `FourBitBus::write`: register-select (high iff
data write), upper nibble, enable pulse, lower nibble, enable pulse,
register-select back low for data writes. -/
def fourBitWriteOps (byte : Nat) (data : Bool) : List POp :=
  [POp.setp PinId.rs data] ++ write_upper_nibble_ops byte ++
  [POp.setp PinId.en true, POp.dly 2, POp.setp PinId.en false] ++
  write_lower_nibble_ops byte ++
  [POp.setp PinId.en true, POp.dly 2, POp.setp PinId.en false] ++
  (if data then [POp.setp PinId.rs false] else [])

/-- `<FourBitBus as DataBus>::write`. -/
def FourBitBus.write (orc : PinOracle) (byte : Nat) (data : Bool)
    (s : PinState) : Except PinState PinState :=
  runOps orc (fourBitWriteOps byte data) s

/-- The straight-line body of `EightBitBus::write`: register-select, all 8
bits on d0–d7, one enable pulse, register-select back low for data writes. -/
def eightBitWriteOps (byte : Nat) (data : Bool) : List POp :=
  [POp.setp PinId.rs data,
   POp.setp PinId.d0 (decide ((0b00000001 &&& byte) ≠ 0)),
   POp.setp PinId.d1 (decide ((0b00000010 &&& byte) ≠ 0)),
   POp.setp PinId.d2 (decide ((0b00000100 &&& byte) ≠ 0)),
   POp.setp PinId.d3 (decide ((0b00001000 &&& byte) ≠ 0)),
   POp.setp PinId.d4 (decide ((0b00010000 &&& byte) ≠ 0)),
   POp.setp PinId.d5 (decide ((0b00100000 &&& byte) ≠ 0)),
   POp.setp PinId.d6 (decide ((0b01000000 &&& byte) ≠ 0)),
   POp.setp PinId.d7 (decide ((0b10000000 &&& byte) ≠ 0)),
   POp.setp PinId.en true, POp.dly 2, POp.setp PinId.en false] ++
  (if data then [POp.setp PinId.rs false] else [])

/-- `<EightBitBus as DataBus>::write`. -/
def EightBitBus.write (orc : PinOracle) (byte : Nat) (data : Bool)
    (s : PinState) : Except PinState PinState :=
  runOps orc (eightBitWriteOps byte data) s

/-- The pin-level event a pin operation produces when it succeeds. -/
def evOf : POp → PinEv
  | POp.setp p lv => PinEv.set p lv
  | POp.dly n => PinEv.delayMs n

/-- Number of pin drives (not delays) in an operation list. -/
def numSets : List POp → Nat
  | [] => 0
  | POp.setp _ _ :: r => numSets r + 1
  | POp.dly _ :: r => numSets r

/-- Number of successful pin drives recorded in a trace. -/
def numSetEvents : List PinEv → Nat
  | [] => 0
  | PinEv.set _ _ :: r => numSetEvents r + 1
  | PinEv.delayMs _ :: r => numSetEvents r

/-- The pin oracle that never fails. -/
def pinOrcAlwaysTrue : PinOracle := fun _ => true

/-- The pin oracle that always fails. -/
def pinOrcAlwaysFalse : PinOracle := fun _ => false

/-! ## Helper lemmas -/

theorem testBit_false_of_lt_eight {v i : Nat} (hv : v < 8) (hi : 3 ≤ i) :
    v.testBit i = false := by
  apply Nat.testBit_eq_false_of_lt
  calc v < 8 := hv
    _ = 2 ^ 3 := by norm_num
    _ ≤ 2 ^ i := Nat.pow_le_pow_right (by norm_num) hi

/-! ## Claims about the encoders -/

/-- Claim C2: for every combination of `EntryMode`, `as_byte` returns a byte
with bit 2 always set, bit 1 set iff `move_direction = Increment`, bit 0 set
iff `display_shift = On`, and all other bits clear. -/
theorem entryMode_as_byte_bits (e : EntryMode) :
    (e.as_byte).testBit 2 = true ∧
    ((e.as_byte).testBit 1 = true ↔ e.move_direction = CursorMode.Increment) ∧
    ((e.as_byte).testBit 0 = true ↔ e.display_shift = ShiftMode.On) ∧
    ∀ i : Nat, i ≠ 0 → i ≠ 1 → i ≠ 2 → (e.as_byte).testBit i = false := by
  obtain ⟨md, ds⟩ := e
  cases md <;> cases ds <;>
    refine ⟨by decide, by decide, by decide, ?_⟩ <;>
    · intro i h0 h1 h2
      exact testBit_false_of_lt_eight (by decide) (by omega)

/-- Witness for C2 at a concrete mode and bit index. -/
theorem entryMode_as_byte_bits_witness :
    (EntryMode.as_byte
      { move_direction := CursorMode.Increment,
        display_shift := ShiftMode.On }).testBit 5 = false :=
  (entryMode_as_byte_bits
    { move_direction := CursorMode.Increment,
      display_shift := ShiftMode.On }).2.2.2 5
    (by decide) (by decide) (by decide)

/-- Claim C3: for every combination of `DisplayMode`, `as_byte` returns a byte
with bit 3 always set, bit 2 set iff `display = On`, bit 1 set iff
`cursor_visibility = On`, bit 0 set iff `cursor_blink = On`, and all other
bits clear. -/
theorem displayMode_as_byte_bits (d : DisplayMode) :
    (d.as_byte).testBit 3 = true ∧
    ((d.as_byte).testBit 2 = true ↔ d.display = Display.On) ∧
    ((d.as_byte).testBit 1 = true ↔ d.cursor_visibility = Cursor.On) ∧
    ((d.as_byte).testBit 0 = true ↔ d.cursor_blink = CursorBlink.On) ∧
    ∀ i : Nat, i ≠ 0 → i ≠ 1 → i ≠ 2 → i ≠ 3 → (d.as_byte).testBit i = false := by
  obtain ⟨cv, cb, dp⟩ := d
  cases cv <;> cases cb <;> cases dp <;>
    refine ⟨by decide, by decide, by decide, by decide, ?_⟩ <;>
    · intro i h0 h1 h2 h3
      apply Nat.testBit_eq_false_of_lt
      calc DisplayMode.as_byte _ < 16 := by decide
        _ = 2 ^ 4 := by norm_num
        _ ≤ 2 ^ i := Nat.pow_le_pow_right (by norm_num) (by omega)

/-- Witness for C3 at a concrete mode and bit index. -/
theorem displayMode_as_byte_bits_witness :
    (DisplayMode.as_byte
      { cursor_visibility := Cursor.On, cursor_blink := CursorBlink.Off,
        display := Display.On }).testBit 6 = false :=
  (displayMode_as_byte_bits
    { cursor_visibility := Cursor.On, cursor_blink := CursorBlink.Off,
      display := Display.On }).2.2.2.2 6
    (by decide) (by decide) (by decide) (by decide)

/-! ## Claims about the display controller (byte level) -/

theorem writeThenDelay_ok (orc : BusOracle) (byte : Nat) (fl : Bool)
    (s : LCDState) (h : orc s.writeCount = true) :
    (busWrite orc byte fl s).map (lcdDelayUs 100) = Except.ok
      { s with writeCount := s.writeCount + 1,
               events := s.events ++ [BEv.write byte fl, BEv.delayUs 100] } := by
  simp [busWrite, h, lcdDelayUs, Except.map]

theorem write_command_ok (orc : BusOracle) (cmd : Nat) (s : LCDState)
    (h : orc s.writeCount = true) :
    write_command orc cmd s = Except.ok
      { s with writeCount := s.writeCount + 1,
               events := s.events ++ [BEv.write cmd false, BEv.delayUs 100] } :=
  writeThenDelay_ok orc cmd false s h

theorem write_command_err (orc : BusOracle) (cmd : Nat) (s : LCDState)
    (h : orc s.writeCount = false) :
    write_command orc cmd s =
      Except.error { s with writeCount := s.writeCount + 1 } := by
  simp [write_command, busWrite, h, Except.map]

/-- Claim C4: for every position `p` in `0..=255`, `set_cursor_pos p` sends
exactly the command byte `0x80 ||| (p &&& 0x7F)` with `is_data = false` and
returns `Ok` when the bus write succeeds; positions `0x85` and `0x05`
produce the same instruction byte (truncation, never an error). -/
theorem set_cursor_pos_truncates :
    (∀ (orc : BusOracle) (p : Nat) (s : LCDState), p < 256 →
      orc s.writeCount = true →
      set_cursor_pos orc p s = Except.ok
        { s with writeCount := s.writeCount + 1,
                 events := s.events ++
                   [BEv.write (0b10000000 ||| (p &&& 0b01111111)) false,
                    BEv.delayUs 100] }) ∧
    (0b10000000 ||| (0x85 &&& 0b01111111) : Nat) =
      0b10000000 ||| (0x05 &&& 0b01111111) := by
  constructor
  · intro orc p s _hp h
    have e : (0b10000000 ||| (p &&& 0b01111111) : Nat) =
        0b10000000 ||| (0b01111111 &&& p) := by rw [Nat.and_comm]
    rw [e]
    exact write_command_ok orc (0b10000000 ||| (0b01111111 &&& p)) s h
  · decide

/-- Witness for C4 at position 0x85 on a never-failing bus. -/
theorem set_cursor_pos_truncates_witness :
    set_cursor_pos orcAlwaysTrue 0x85 mkLCD = Except.ok
      { mkLCD with writeCount := mkLCD.writeCount + 1,
                   events := mkLCD.events ++
                     [BEv.write (0b10000000 ||| (0x85 &&& 0b01111111)) false,
                      BEv.delayUs 100] } :=
  set_cursor_pos_truncates.1 orcAlwaysTrue 0x85 mkLCD (by decide) rfl

/-- Claim C5: `shift_cursor` sends exactly 0x10 for Left and 0x14 for Right,
`shift_display` sends exactly 0x18 for Left and 0x1C for Right, all as
commands; and the duplicated OR in `shift_cursor` is equivalent to a single
OR. -/
theorem shift_command_bytes (orc : BusOracle) (s : LCDState)
    (h : orc s.writeCount = true) :
    shift_cursor orc Direction.Left s = Except.ok
      { s with writeCount := s.writeCount + 1,
               events := s.events ++ [BEv.write 0x10 false, BEv.delayUs 100] } ∧
    shift_cursor orc Direction.Right s = Except.ok
      { s with writeCount := s.writeCount + 1,
               events := s.events ++ [BEv.write 0x14 false, BEv.delayUs 100] } ∧
    shift_display orc Direction.Left s = Except.ok
      { s with writeCount := s.writeCount + 1,
               events := s.events ++ [BEv.write 0x18 false, BEv.delayUs 100] } ∧
    shift_display orc Direction.Right s = Except.ok
      { s with writeCount := s.writeCount + 1,
               events := s.events ++ [BEv.write 0x1C false, BEv.delayUs 100] } ∧
    ∀ bits : Nat, 0b00010000 ||| bits ||| bits = 0b00010000 ||| bits := by
  refine ⟨?_, ?_, ?_, ?_, ?_⟩
  · exact write_command_ok orc (0b00010000 ||| 0b00000000 ||| 0b00000000) s h
  · exact write_command_ok orc (0b00010000 ||| 0b00000100 ||| 0b00000100) s h
  · exact write_command_ok orc (0b00011000 ||| 0b00000000) s h
  · exact write_command_ok orc (0b00011000 ||| 0b00000100) s h
  · intro bits
    rw [Nat.or_assoc, Nat.or_self]

/-- Witness for C5 on a never-failing bus from the fresh controller state. -/
theorem shift_command_bytes_witness :
    shift_cursor orcAlwaysTrue Direction.Left mkLCD = Except.ok
      { mkLCD with writeCount := mkLCD.writeCount + 1,
                   events := mkLCD.events ++
                     [BEv.write 0x10 false, BEv.delayUs 100] } :=
  (shift_command_bytes orcAlwaysTrue mkLCD rfl).1

/-- Claim C8: every public command operation of the controller (and
`write_byte`) issues, on success, exactly one bus write followed by exactly
one 100 µs delay and no other bus writes. -/
theorem command_ops_single_write_delay (orc : BusOracle) (s : LCDState)
    (h : orc s.writeCount = true) :
    oneWriteThenDelay (reset orc) s ∧
    oneWriteThenDelay (clear orc) s ∧
    (∀ dm, oneWriteThenDelay (set_display_mode orc dm) s) ∧
    (∀ d, oneWriteThenDelay (set_display orc d) s) ∧
    (∀ c, oneWriteThenDelay (set_cursor_visibility orc c) s) ∧
    (∀ cb, oneWriteThenDelay (set_cursor_blink orc cb) s) ∧
    (∀ sm, oneWriteThenDelay (set_autoscroll orc sm) s) ∧
    (∀ cm, oneWriteThenDelay (set_cursor_mode orc cm) s) ∧
    (∀ p, oneWriteThenDelay (set_cursor_pos orc p) s) ∧
    (∀ dir, oneWriteThenDelay (shift_cursor orc dir) s) ∧
    (∀ dir, oneWriteThenDelay (shift_display orc dir) s) ∧
    (∀ b, oneWriteThenDelay (write_byte orc b) s) := by
  refine ⟨⟨_, _, _, write_command_ok orc _ s h, rfl⟩,
          ⟨_, _, _, write_command_ok orc _ s h, rfl⟩,
          fun dm => ⟨_, _, _,
            write_command_ok orc _ { s with display_mode := dm } h, rfl⟩,
          fun d => ⟨_, _, _,
            write_command_ok orc _
              { s with display_mode := { s.display_mode with display := d } } h,
            rfl⟩,
          fun c => ⟨_, _, _,
            write_command_ok orc _
              { s with display_mode :=
                  { s.display_mode with cursor_visibility := c } } h, rfl⟩,
          fun cb => ⟨_, _, _,
            write_command_ok orc _
              { s with display_mode :=
                  { s.display_mode with cursor_blink := cb } } h, rfl⟩,
          fun sm => ⟨_, _, _,
            write_command_ok orc _
              { s with entry_mode :=
                  { s.entry_mode with display_shift := sm } } h, rfl⟩,
          fun cm => ⟨_, _, _,
            write_command_ok orc _
              { s with entry_mode :=
                  { s.entry_mode with move_direction := cm } } h, rfl⟩,
          fun p => ⟨_, _, _, write_command_ok orc _ s h, rfl⟩,
          fun dir => ?_,
          fun dir => ?_,
          fun b => ⟨_, _, _, writeThenDelay_ok orc b true s h, rfl⟩⟩
  · cases dir
    · exact ⟨_, _, _,
        write_command_ok orc (0b00010000 ||| 0b00000000 ||| 0b00000000) s h, rfl⟩
    · exact ⟨_, _, _,
        write_command_ok orc (0b00010000 ||| 0b00000100 ||| 0b00000100) s h, rfl⟩
  · cases dir
    · exact ⟨_, _, _, write_command_ok orc (0b00011000 ||| 0b00000000) s h, rfl⟩
    · exact ⟨_, _, _, write_command_ok orc (0b00011000 ||| 0b00000100) s h, rfl⟩

/-- Witness for C8: the `reset` operation on a never-failing bus. -/
theorem command_ops_single_write_delay_witness :
    oneWriteThenDelay (reset orcAlwaysTrue) mkLCD :=
  (command_ops_single_write_delay orcAlwaysTrue mkLCD rfl).1

/-- Claim C9: every mode setter assigns the stored `EntryMode`/`DisplayMode`
field before attempting the bus write, so when the write fails the method
returns `Err` with the stored mode already updated (no rollback). -/
theorem mode_setters_mutate_before_write (orc : BusOracle) (s : LCDState)
    (h : orc s.writeCount = false) :
    (∀ dm, ∃ s', set_display_mode orc dm s = Except.error s' ∧
      s'.display_mode = dm) ∧
    (∀ d, ∃ s', set_display orc d s = Except.error s' ∧
      s'.display_mode.display = d) ∧
    (∀ c, ∃ s', set_cursor_visibility orc c s = Except.error s' ∧
      s'.display_mode.cursor_visibility = c) ∧
    (∀ cb, ∃ s', set_cursor_blink orc cb s = Except.error s' ∧
      s'.display_mode.cursor_blink = cb) ∧
    (∀ sm, ∃ s', set_autoscroll orc sm s = Except.error s' ∧
      s'.entry_mode.display_shift = sm) ∧
    (∀ cm, ∃ s', set_cursor_mode orc cm s = Except.error s' ∧
      s'.entry_mode.move_direction = cm) :=
  ⟨fun dm => ⟨_, write_command_err orc _ { s with display_mode := dm } h, rfl⟩,
   fun d => ⟨_, write_command_err orc _
     { s with display_mode := { s.display_mode with display := d } } h, rfl⟩,
   fun c => ⟨_, write_command_err orc _
     { s with display_mode :=
         { s.display_mode with cursor_visibility := c } } h, rfl⟩,
   fun cb => ⟨_, write_command_err orc _
     { s with display_mode :=
         { s.display_mode with cursor_blink := cb } } h, rfl⟩,
   fun sm => ⟨_, write_command_err orc _
     { s with entry_mode :=
         { s.entry_mode with display_shift := sm } } h, rfl⟩,
   fun cm => ⟨_, write_command_err orc _
     { s with entry_mode :=
         { s.entry_mode with move_direction := cm } } h, rfl⟩⟩

/-- Witness for C9: `set_display_mode` on an always-failing bus keeps the new
mode stored. -/
theorem mode_setters_mutate_before_write_witness :
    ∃ s', set_display_mode orcAlwaysFalse
      { cursor_visibility := Cursor.Off, cursor_blink := CursorBlink.Off,
        display := Display.Off } mkLCD = Except.error s' ∧
      s'.display_mode =
        { cursor_visibility := Cursor.Off, cursor_blink := CursorBlink.Off,
          display := Display.Off } :=
  (mode_setters_mutate_before_write orcAlwaysFalse mkLCD rfl).1
    { cursor_visibility := Cursor.Off, cursor_blink := CursorBlink.Off,
      display := Display.Off }

/-! ## Claims about the initialization sequences -/

theorem init_4bit_ok (orc : BusOracle) (h : ∀ n, orc n = true) (s : LCDState) :
    init_4bit orc s = Except.ok
      { s with writeCount := s.writeCount + 7,
               events := s.events ++
                 [BEv.delayMs 15, BEv.write 0x33 false, BEv.delayMs 5,
                  BEv.write 0x32 false, BEv.delayUs 100, BEv.write 0x28 false,
                  BEv.delayUs 100, BEv.write 0x0E false, BEv.delayUs 100,
                  BEv.write 0x01 false, BEv.delayUs 100,
                  BEv.write s.entry_mode.as_byte false, BEv.delayUs 100,
                  BEv.write 0x80 false, BEv.delayUs 100] } := by
  simp [init_4bit, busWrite, lcdDelayMs, lcdDelayUs, h, Except.bind]

theorem init_8bit_ok (orc : BusOracle) (h : ∀ n, orc n = true) (s : LCDState) :
    init_8bit orc s = Except.ok
      { s with writeCount := s.writeCount + 6,
               events := s.events ++
                 [BEv.delayMs 15, BEv.write 0b00110000 false, BEv.delayMs 5,
                  BEv.write 0b00111000 false, BEv.delayUs 100,
                  BEv.write 0b00001110 false, BEv.delayUs 100,
                  BEv.write 0b00000001 false, BEv.delayUs 100,
                  BEv.write 0b00000111 false, BEv.delayUs 100,
                  BEv.write s.entry_mode.as_byte false, BEv.delayUs 100] } := by
  simp [init_8bit, busWrite, lcdDelayMs, lcdDelayUs, h, Except.bind]

/-- Counterexample for C1: the 4-bit construction on a never-failing bus
transmits 7 commands, not 9. -/
theorem new_4bit_seven_writes_not_nine :
    (∃ s, new_4bit orcAlwaysTrue = Except.ok s ∧ numWrites s.events = 7) ∧
    ¬(∃ s, new_4bit orcAlwaysTrue = Except.ok s ∧ numWrites s.events = 9) := by
  have e : new_4bit orcAlwaysTrue = Except.ok
      { entry_mode := EntryMode.default, display_mode := DisplayMode.default,
        writeCount := 7,
        events := [BEv.delayMs 15, BEv.write 0x33 false, BEv.delayMs 5,
          BEv.write 0x32 false, BEv.delayUs 100, BEv.write 0x28 false,
          BEv.delayUs 100, BEv.write 0x0E false, BEv.delayUs 100,
          BEv.write 0x01 false, BEv.delayUs 100, BEv.write 6 false,
          BEv.delayUs 100, BEv.write 0x80 false, BEv.delayUs 100] } := rfl
  constructor
  · exact ⟨_, e, by decide⟩
  · rintro ⟨s, hok, h9⟩
    rw [e] at hok
    cases hok
    exact absurd h9 (by decide)

/-- Claim C1 (amended: the sequence has 7 commands, not 9): `new_4bit` with a
bus and delay provider that never fail succeeds and transmits exactly
0x33, 0x32, 0x28, 0x0E, 0x01, the current EntryMode byte, 0x80, in order,
all with `is_data = false`, with no extra or missing commands, with a 15 ms
wait before the first command, a 5 ms wait after 0x33, and a 100 µs wait
after each subsequent command. -/
theorem new_4bit_init_trace (orc : BusOracle) (h : ∀ n, orc n = true) :
    new_4bit orc = Except.ok
      { entry_mode := EntryMode.default, display_mode := DisplayMode.default,
        writeCount := 7,
        events := [BEv.delayMs 15, BEv.write 0x33 false, BEv.delayMs 5,
          BEv.write 0x32 false, BEv.delayUs 100, BEv.write 0x28 false,
          BEv.delayUs 100, BEv.write 0x0E false, BEv.delayUs 100,
          BEv.write 0x01 false, BEv.delayUs 100,
          BEv.write EntryMode.default.as_byte false, BEv.delayUs 100,
          BEv.write 0x80 false, BEv.delayUs 100] } := by
  have := init_4bit_ok orc h mkLCD
  simpa [mkLCD] using this

/-- Witness for C1's amended theorem on the concrete never-failing bus. -/
theorem new_4bit_init_trace_witness :
    new_4bit orcAlwaysTrue = Except.ok
      { entry_mode := EntryMode.default, display_mode := DisplayMode.default,
        writeCount := 7,
        events := [BEv.delayMs 15, BEv.write 0x33 false, BEv.delayMs 5,
          BEv.write 0x32 false, BEv.delayUs 100, BEv.write 0x28 false,
          BEv.delayUs 100, BEv.write 0x0E false, BEv.delayUs 100,
          BEv.write 0x01 false, BEv.delayUs 100,
          BEv.write EntryMode.default.as_byte false, BEv.delayUs 100,
          BEv.write 0x80 false, BEv.delayUs 100] } :=
  new_4bit_init_trace orcAlwaysTrue (fun _ => rfl)

/-- Claim C10: after every successful construction the stored `DisplayMode`
is the default (all three fields On), whose encoding is 0x0F, yet the
display-control byte transmitted during initialization is the fixed constant
0x0E; the stored DisplayMode byte is never transmitted during init. -/
theorem init_display_mode_discrepancy :
    DisplayMode.default.as_byte = 0x0F ∧
    (∀ orc : BusOracle, (∀ n, orc n = true) →
      ∃ s, new_4bit orc = Except.ok s ∧ s.display_mode = DisplayMode.default ∧
        BEv.write 0x0E false ∈ s.events ∧
        ∀ fl, BEv.write 0x0F fl ∉ s.events) ∧
    (∀ orc : BusOracle, (∀ n, orc n = true) →
      ∃ s, new_8bit orc = Except.ok s ∧ s.display_mode = DisplayMode.default ∧
        BEv.write 0x0E false ∈ s.events ∧
        ∀ fl, BEv.write 0x0F fl ∉ s.events) := by
  refine ⟨by decide, ?_, ?_⟩
  · intro orc h
    refine ⟨_, init_4bit_ok orc h mkLCD, rfl, by decide, ?_⟩
    intro fl
    cases fl <;> decide
  · intro orc h
    refine ⟨_, init_8bit_ok orc h mkLCD, rfl, by decide, ?_⟩
    intro fl
    cases fl <;> decide

/-- Witness for C10's quantified parts on the concrete never-failing bus. -/
theorem init_display_mode_discrepancy_witness :
    ∃ s, new_4bit orcAlwaysTrue = Except.ok s ∧
      s.display_mode = DisplayMode.default ∧
      BEv.write 0x0E false ∈ s.events ∧
      ∀ fl, BEv.write 0x0F fl ∉ s.events :=
  init_display_mode_discrepancy.2.1 orcAlwaysTrue (fun _ => rfl)

/-! ## Claims about the pin-level transports -/

theorem decide_and_two_pow_ne (i b : Nat) :
    decide ((2 ^ i &&& b) ≠ 0) = b.testBit i := by
  rw [Nat.two_pow_and]
  cases hb : b.testBit i <;> simp [hb]

theorem decide_and_bit1 (b : Nat) :
    decide ((0b00000010 &&& b) = 0) = !b.testBit 1 := by
  have := decide_and_two_pow_ne 1 b
  norm_num at this
  exact this

theorem decide_and_bit2 (b : Nat) :
    decide ((0b00000100 &&& b) = 0) = !b.testBit 2 := by
  have := decide_and_two_pow_ne 2 b
  norm_num at this
  exact this

theorem decide_and_bit3 (b : Nat) :
    decide ((0b00001000 &&& b) = 0) = !b.testBit 3 := by
  have := decide_and_two_pow_ne 3 b
  norm_num at this
  exact this

theorem decide_and_bit4 (b : Nat) :
    decide ((0b00010000 &&& b) = 0) = !b.testBit 4 := by
  have := decide_and_two_pow_ne 4 b
  norm_num at this
  exact this

theorem decide_and_bit5 (b : Nat) :
    decide ((0b00100000 &&& b) = 0) = !b.testBit 5 := by
  have := decide_and_two_pow_ne 5 b
  norm_num at this
  exact this

theorem decide_and_bit6 (b : Nat) :
    decide ((0b01000000 &&& b) = 0) = !b.testBit 6 := by
  have := decide_and_two_pow_ne 6 b
  norm_num at this
  exact this

theorem decide_and_bit7 (b : Nat) :
    decide ((0b10000000 &&& b) = 0) = !b.testBit 7 := by
  have := decide_and_two_pow_ne 7 b
  norm_num at this
  exact this

theorem numSetEvents_append (l₁ l₂ : List PinEv) :
    numSetEvents (l₁ ++ l₂) = numSetEvents l₁ + numSetEvents l₂ := by
  induction l₁ with
  | nil => simp [numSetEvents]
  | cons a r ih =>
    cases a with
    | set p lv =>
      simp [numSetEvents, ih]
      omega
    | delayMs n => simp [numSetEvents, ih]

theorem runOps_ok (orc : PinOracle) (h : ∀ n, orc n = true) :
    ∀ (ops : List POp) (s : PinState),
      runOps orc ops s = Except.ok
        { opCount := s.opCount + numSets ops,
          trace := s.trace ++ ops.map evOf } := by
  intro ops
  induction ops with
  | nil =>
    intro s
    simp [runOps, numSets]
  | cons op rest ih =>
    intro s
    cases op with
    | setp p lv =>
      have hs : setPin orc p lv s =
          Except.ok ⟨s.opCount + 1, s.trace ++ [PinEv.set p lv]⟩ := by
        simp [setPin, h]
      simp only [runOps, hs, Except.bind]
      rw [ih]
      refine congrArg Except.ok (congrArg₂ PinState.mk ?_ ?_)
      · simp [numSets]
        omega
      · simp [evOf]
    | dly n =>
      simp only [runOps]
      rw [ih]
      refine congrArg Except.ok (congrArg₂ PinState.mk ?_ ?_)
      · simp [numSets]
      · simp [evOf]

theorem runOps_error_inv (orc : PinOracle) :
    ∀ (ops : List POp) (s s' : PinState),
      runOps orc ops s = Except.error s' →
      ∃ k, s'.opCount = s.opCount + k + 1 ∧
        numSetEvents s'.trace = numSetEvents s.trace + k ∧
        orc (s.opCount + k) = false := by
  intro ops
  induction ops with
  | nil =>
    intro s s' hE
    simp [runOps] at hE
  | cons op rest ih =>
    intro s s' hE
    cases op with
    | dly n =>
      simp only [runOps] at hE
      obtain ⟨k, h1, h2, h3⟩ := ih _ _ hE
      refine ⟨k, ?_, ?_, ?_⟩
      · simpa using h1
      · simpa [numSetEvents_append, numSetEvents] using h2
      · simpa using h3
    | setp p lv =>
      cases ho : orc s.opCount with
      | false =>
        have hs : setPin orc p lv s =
            Except.error { s with opCount := s.opCount + 1 } := by
          simp [setPin, ho]
        simp only [runOps, hs, Except.bind] at hE
        injection hE with hE
        subst hE
        exact ⟨0, by simp, by simp, by simpa using ho⟩
      | true =>
        have hs : setPin orc p lv s =
            Except.ok ⟨s.opCount + 1, s.trace ++ [PinEv.set p lv]⟩ := by
          simp [setPin, ho]
        simp only [runOps, hs, Except.bind] at hE
        obtain ⟨k, h1, h2, h3⟩ := ih _ _ hE
        refine ⟨k + 1, ?_, ?_, ?_⟩
        · simp only at h1
          omega
        · simp only [numSetEvents_append, numSetEvents] at h2
          omega
        · have e : s.opCount + (k + 1) = s.opCount + 1 + k := by omega
          rw [e]
          simpa using h3

theorem runOps_first_fail (orc : PinOracle) (p : PinId) (lv : Bool)
    (rest : List POp) (s : PinState) (h : orc s.opCount = false) :
    runOps orc (POp.setp p lv :: rest) s =
      Except.error { s with opCount := s.opCount + 1 } := by
  have hs : setPin orc p lv s =
      Except.error { s with opCount := s.opCount + 1 } := by
    simp [setPin, h]
  simp only [runOps, hs, Except.bind]

/-- Claim C6: a successful 4-bit transport write drives register-select once
at the start (high iff it is a data write), presents the upper nibble of the
byte on d4–d7 followed by one enable pulse, then the lower nibble followed
by a second enable pulse, with register-select untouched between the pulses
and driven low at the end only for data writes. -/
theorem fourbit_write_pin_trace (orc : PinOracle) (h : ∀ n, orc n = true)
    (byte : Nat) (data : Bool) (s : PinState) :
    FourBitBus.write orc byte data s = Except.ok
      { opCount := s.opCount + (if data then 14 else 13),
        trace := s.trace ++
          ([PinEv.set PinId.rs data,
            PinEv.set PinId.d4 (byte.testBit 4),
            PinEv.set PinId.d5 (byte.testBit 5),
            PinEv.set PinId.d6 (byte.testBit 6),
            PinEv.set PinId.d7 (byte.testBit 7),
            PinEv.set PinId.en true, PinEv.delayMs 2,
            PinEv.set PinId.en false,
            PinEv.set PinId.d4 (byte.testBit 0),
            PinEv.set PinId.d5 (byte.testBit 1),
            PinEv.set PinId.d6 (byte.testBit 2),
            PinEv.set PinId.d7 (byte.testBit 3),
            PinEv.set PinId.en true, PinEv.delayMs 2,
            PinEv.set PinId.en false] ++
           (if data then [PinEv.set PinId.rs false] else [])) } := by
  rw [show FourBitBus.write orc byte data s =
        runOps orc (fourBitWriteOps byte data) s from rfl,
      runOps_ok orc h]
  refine congrArg Except.ok (congrArg₂ PinState.mk ?_ ?_)
  · cases data <;>
      simp [fourBitWriteOps, write_upper_nibble_ops, write_lower_nibble_ops,
        numSets]
  · cases data <;>
      simp [fourBitWriteOps, write_upper_nibble_ops, write_lower_nibble_ops,
        evOf, decide_and_bit1, decide_and_bit2, decide_and_bit3,
        decide_and_bit4, decide_and_bit5, decide_and_bit6, decide_and_bit7]

/-- Witness for C6 at byte 0xA5 as a data write: the data lines d7..d4 carry
1010 for the first enable pulse and 0101 for the second. -/
theorem fourbit_write_pin_trace_witness :
    FourBitBus.write pinOrcAlwaysTrue 0xA5 true ⟨0, []⟩ = Except.ok
      { opCount := 14,
        trace := [PinEv.set PinId.rs true,
          PinEv.set PinId.d4 false, PinEv.set PinId.d5 true,
          PinEv.set PinId.d6 false, PinEv.set PinId.d7 true,
          PinEv.set PinId.en true, PinEv.delayMs 2, PinEv.set PinId.en false,
          PinEv.set PinId.d4 true, PinEv.set PinId.d5 false,
          PinEv.set PinId.d6 true, PinEv.set PinId.d7 false,
          PinEv.set PinId.en true, PinEv.delayMs 2, PinEv.set PinId.en false,
          PinEv.set PinId.rs false] } :=
  fourbit_write_pin_trace pinOrcAlwaysTrue (fun _ => rfl) 0xA5 true ⟨0, []⟩

/-- Claim C7: if the first pin operation of a transport write (the
register-select drive) fails, the write returns `Err` with the enable signal
never asserted; and in general, for both the 4-bit and 8-bit transports, an
error return means the write stopped at the first failing pin operation,
having performed exactly the pin drives before it (no retries, one opaque
error). -/
theorem transport_write_first_failure_aborts :
    (∀ (orc : PinOracle) (byte : Nat) (data : Bool), orc 0 = false →
      ∃ s', FourBitBus.write orc byte data ⟨0, []⟩ = Except.error s' ∧
        PinEv.set PinId.en true ∉ s'.trace) ∧
    (∀ (orc : PinOracle) (byte : Nat) (data : Bool), orc 0 = false →
      ∃ s', EightBitBus.write orc byte data ⟨0, []⟩ = Except.error s' ∧
        PinEv.set PinId.en true ∉ s'.trace) ∧
    (∀ (orc : PinOracle) (byte : Nat) (data : Bool) (s s' : PinState),
      FourBitBus.write orc byte data s = Except.error s' →
      ∃ k, s'.opCount = s.opCount + k + 1 ∧
        numSetEvents s'.trace = numSetEvents s.trace + k ∧
        orc (s.opCount + k) = false) ∧
    (∀ (orc : PinOracle) (byte : Nat) (data : Bool) (s s' : PinState),
      EightBitBus.write orc byte data s = Except.error s' →
      ∃ k, s'.opCount = s.opCount + k + 1 ∧
        numSetEvents s'.trace = numSetEvents s.trace + k ∧
        orc (s.opCount + k) = false) := by
  refine ⟨?_, ?_, ?_, ?_⟩
  · intro orc byte data h
    exact ⟨_, runOps_first_fail orc PinId.rs data _ ⟨0, []⟩ h, by simp⟩
  · intro orc byte data h
    exact ⟨_, runOps_first_fail orc PinId.rs data _ ⟨0, []⟩ h, by simp⟩
  · intro orc byte data s s' hE
    exact runOps_error_inv orc _ s s' hE
  · intro orc byte data s s' hE
    exact runOps_error_inv orc _ s s' hE

/-- Witness for C7: a pin oracle whose first operation fails, at byte 0xA5. -/
theorem transport_write_first_failure_aborts_witness :
    (∃ s', FourBitBus.write pinOrcAlwaysFalse 0xA5 true ⟨0, []⟩ =
        Except.error s' ∧ PinEv.set PinId.en true ∉ s'.trace) ∧
    (∃ s', EightBitBus.write pinOrcAlwaysFalse 0xA5 true ⟨0, []⟩ =
        Except.error s' ∧ PinEv.set PinId.en true ∉ s'.trace) :=
  ⟨transport_write_first_failure_aborts.1 pinOrcAlwaysFalse 0xA5 true rfl,
   transport_write_first_failure_aborts.2.1 pinOrcAlwaysFalse 0xA5 true rfl⟩

end LCD
